import Mathlib

/-!
Verification of the `internal/ingestion` package of the logistics-quality-monitor
repository: message parsing and validation, the alert engine, the processor's
bounded-channel backpressure and batch flushing, and the MQTT ingestion client.

Modelling conventions:
* Go `float64` sensor values are modelled as `ℚ`; every comparison the code
  performs (`<`, `>`) coincides with the float comparison on the exactly
  representable values all verified statements use.
* Go `time.Time` is modelled as `Int` (nanoseconds); the value `0` models the
  zero `time.Time`, so `t = 0` models `t.IsZero()`.
* Go `int`/`int64` counters are modelled as `Nat`; they are only ever
  incremented by small amounts in the modelled code, so two's-complement
  wrap-around is unreachable in every statement proved here.
* `*T` (nullable pointer) fields are modelled as `Option`.
-/

namespace LogisticsIngestion

/-- GoTime models Go `time.Time` as nanoseconds; `0` is the zero time. -/
abbrev GoTime := Int

/-- Models `fmt.Sprintf("%.2f", q)` for a `float64` carrying the rational
value `q`.  It is exact whenever `q` is an integer multiple of `1/100`
(true of every formatted value in the verified statements); Go's rounding of
other binary floats is not modelled. -/
def sprintF2 (q : ℚ) : String :=
  let hund : Nat := q.num.natAbs * 100 / q.den
  let sign := if q < 0 then "-" else ""
  let ip := hund / 100
  let fp := hund % 100
  let fs := if fp < 10 then "0" ++ toString fp else toString fp
  sign ++ toString ip ++ "." ++ fs

/-- `charsStart pat s` holds when the character list `s` starts with `pat`. -/
def charsStart : List Char → List Char → Bool
  | [], _ => true
  | _ :: _, [] => false
  | p :: ps, c :: cs => p = c && charsStart ps cs

/-- `charsContain pat s` holds when `pat` occurs contiguously in `s`. -/
def charsContain (pat : List Char) : List Char → Bool
  | [] => charsStart pat []
  | c :: cs => charsStart pat (c :: cs) || charsContain pat cs

/-- `strContains s pat` holds when `pat` occurs as a substring of `s`
(the "message mentions ..." predicate of the spec). -/
def strContains (s pat : String) : Bool :=
  charsContain pat.data s.data

/-- Hexadecimal digit test used by the UUID parser model. -/
def isHexDigit (c : Char) : Bool :=
  c.isDigit || ('a' ≤ c && c ≤ 'f') || ('A' ≤ c && c ≤ 'F')

/-- Models `uuid.Parse` from github.com/google/uuid for the canonical
`8-4-4-4-12` textual form used throughout this system (the library also
accepts brace/URN/32-digit variants, which never occur here).  On success
Go returns the parsed UUID, whose textual form is the lower-cased input;
we model the parsed value by that string. -/
def uuidParse (s : String) : Option String :=
  let cs := s.data
  if cs.length = 36
      && (List.range 36).all (fun i =>
        let c := cs.getD i ' '
        if i = 8 || i = 13 || i = 18 || i = 23 then c = '-' else isHexDigit c)
  then some s.toLower
  else none

/-- SensorDataMessage (messages.go): incoming sensor data from an IoT device.
Optional (`*float64`/`*int`) fields are `Option`; absence means "not reported". -/
structure SensorDataMessage where
  DeviceID       : String
  Timestamp      : GoTime
  Temperature    : Option ℚ
  Humidity       : Option ℚ
  LightLevel     : Option ℚ
  TiltAngle      : Option ℚ
  ImpactG        : Option ℚ
  BatteryLevel   : Option Int
  SignalStrength : Option Int
deriving DecidableEq

/-- LocationDataMessage (messages.go): GPS location data. -/
structure LocationDataMessage where
  DeviceID  : String
  Timestamp : GoTime
  Latitude  : ℚ
  Longitude : ℚ
  Altitude  : Option ℚ
  Speed     : Option ℚ
  Accuracy  : Option ℚ
deriving DecidableEq

/-- SensorDataRecord (messages.go): the unit of batch persistence — a sensor
reading merged with the latest cached location.  `DeviceID` is the parsed
UUID (modelled by its canonical lower-case string form). -/
structure SensorDataRecord where
  Time           : GoTime
  DeviceID       : String
  Latitude       : Option ℚ
  Longitude      : Option ℚ
  Altitude       : Option ℚ
  Speed          : Option ℚ
  Temperature    : Option ℚ
  Humidity       : Option ℚ
  LightLevel     : Option ℚ
  TiltAngle      : Option ℚ
  ImpactG        : Option ℚ
  BatteryLevel   : Option Int
  SignalStrength : Option Int
deriving DecidableEq

/-- ValidationError (validator.go). -/
structure ValidationError where
  Field   : String
  Message : String
deriving DecidableEq

/-- ValidateSensorData (validator.go): field-by-field range validation, in
source order; `none` models a `nil` error. -/
def ValidateSensorData (msg : SensorDataMessage) : Option ValidationError :=
  if msg.DeviceID = "" then
    some ⟨"device_id", "device_id is required"⟩
  else if (uuidParse msg.DeviceID).isNone then
    some ⟨"device_id", "device_id must be valid UUID"⟩
  else if msg.Timestamp = 0 then
    some ⟨"timestamp", "timestamp is required"⟩
  else if msg.Temperature.any (fun t => decide (t < -100) || decide (t > 100)) then
    some ⟨"temperature", "temperature must be between -100 and 100"⟩
  else if msg.Humidity.any (fun h => decide (h < 0) || decide (h > 100)) then
    some ⟨"humidity", "humidity must be between 0 and 100"⟩
  else if msg.LightLevel.any (fun l => decide (l < 0)) then
    some ⟨"light_level", "light_level must be non-negative"⟩
  else if msg.TiltAngle.any (fun a => decide (a < 0) || decide (a > 180)) then
    some ⟨"tilt_angle", "tilt_angle must be between 0 and 180"⟩
  else if msg.ImpactG.any (fun g => decide (g < 0) || decide (g > 50)) then
    some ⟨"impact_g", "impact_g must be between 0 and 50"⟩
  else if msg.BatteryLevel.any (fun b => decide (b < 0) || decide (b > 100)) then
    some ⟨"battery_level", "battery_level must be between 0 and 100"⟩
  else if msg.SignalStrength.any (fun s => decide (s < -120) || decide (s > 0)) then
    some ⟨"signal_strength", "signal_strength must be between -120 and 0"⟩
  else
    none

/-- ValidateLocationData (validator.go). -/
def ValidateLocationData (msg : LocationDataMessage) : Option ValidationError :=
  if msg.DeviceID = "" then
    some ⟨"device_id", "device_id is required"⟩
  else if (uuidParse msg.DeviceID).isNone then
    some ⟨"device_id", "device_id must be valid UUID"⟩
  else if msg.Timestamp = 0 then
    some ⟨"timestamp", "timestamp is required"⟩
  else if decide (msg.Latitude < -90) || decide (msg.Latitude > 90) then
    some ⟨"latitude", "latitude must be between -90 and 90"⟩
  else if decide (msg.Longitude < -180) || decide (msg.Longitude > 180) then
    some ⟨"longitude", "longitude must be between -180 and 180"⟩
  else if msg.Speed.any (fun s => decide (s < 0)) then
    some ⟨"speed", "speed must be non-negative"⟩
  else
    none

/-! ## JSON codec model (messages.go: `ParseSensorData` over `encoding/json`)

Go's `json.Unmarshal`/`json.Marshal` are modelled at the JSON-value level:
a payload is either syntactically malformed or an object, an object is a key
ordered list of fields, and a JSON value is `null`, a number (as `ℚ`), a
string, or the RFC3339 timestamp encoding of a `time.Time` (abstracted as its
own leaf, since both directions of the codec treat it atomically). -/

/-- A JSON value as produced/consumed by the Go codec for these messages. -/
inductive JValue where
  | null
  | jnum (q : ℚ)
  | jstr (s : String)
  | jtime (t : GoTime)
deriving DecidableEq

/-- A raw MQTT payload: either not syntactically valid JSON, or an object. -/
inductive JPayload where
  | malformed
  | object (fields : List (String × JValue))
deriving DecidableEq

/-- `json.Marshal` of a `SensorDataMessage`: the struct has no `omitempty`
tags, so every field is emitted and `nil` pointers marshal to `null`. -/
def marshalSensorData (m : SensorDataMessage) : List (String × JValue) :=
  [("device_id", JValue.jstr m.DeviceID),
   ("timestamp", JValue.jtime m.Timestamp),
   ("temperature", match m.Temperature with | some q => JValue.jnum q | none => JValue.null),
   ("humidity", match m.Humidity with | some q => JValue.jnum q | none => JValue.null),
   ("light_level", match m.LightLevel with | some q => JValue.jnum q | none => JValue.null),
   ("tilt_angle", match m.TiltAngle with | some q => JValue.jnum q | none => JValue.null),
   ("impact_g", match m.ImpactG with | some q => JValue.jnum q | none => JValue.null),
   ("battery_level", match m.BatteryLevel with | some n => JValue.jnum (n : ℚ) | none => JValue.null),
   ("signal_strength", match m.SignalStrength with | some n => JValue.jnum (n : ℚ) | none => JValue.null)]

/-- The zero value of `SensorDataMessage`, the starting point of
`json.Unmarshal` into a fresh struct. -/
def zeroSensorDataMessage : SensorDataMessage :=
  { DeviceID := "", Timestamp := 0, Temperature := none, Humidity := none,
    LightLevel := none, TiltAngle := none, ImpactG := none,
    BatteryLevel := none, SignalStrength := none }

/-- One step of `json.Unmarshal` into `SensorDataMessage`: apply an object
field to the struct, per Go semantics — unknown keys are ignored, `null`
sets pointer fields to `nil` and is a no-op on non-pointer fields, a JSON
number decodes into `*int` only when it has no fractional part, and a type
mismatch is an error (`none`). -/
def applySensorField (m : SensorDataMessage) (kv : String × JValue) :
    Option SensorDataMessage :=
  if kv.1 = "device_id" then
    match kv.2 with
    | JValue.jstr s => some { m with DeviceID := s }
    | JValue.null => some m
    | _ => none
  else if kv.1 = "timestamp" then
    match kv.2 with
    | JValue.jtime t => some { m with Timestamp := t }
    | JValue.null => some m
    | _ => none
  else if kv.1 = "temperature" then
    match kv.2 with
    | JValue.jnum q => some { m with Temperature := some q }
    | JValue.null => some { m with Temperature := none }
    | _ => none
  else if kv.1 = "humidity" then
    match kv.2 with
    | JValue.jnum q => some { m with Humidity := some q }
    | JValue.null => some { m with Humidity := none }
    | _ => none
  else if kv.1 = "light_level" then
    match kv.2 with
    | JValue.jnum q => some { m with LightLevel := some q }
    | JValue.null => some { m with LightLevel := none }
    | _ => none
  else if kv.1 = "tilt_angle" then
    match kv.2 with
    | JValue.jnum q => some { m with TiltAngle := some q }
    | JValue.null => some { m with TiltAngle := none }
    | _ => none
  else if kv.1 = "impact_g" then
    match kv.2 with
    | JValue.jnum q => some { m with ImpactG := some q }
    | JValue.null => some { m with ImpactG := none }
    | _ => none
  else if kv.1 = "battery_level" then
    match kv.2 with
    | JValue.jnum q => if q.den = 1 then some { m with BatteryLevel := some q.num } else none
    | JValue.null => some { m with BatteryLevel := none }
    | _ => none
  else if kv.1 = "signal_strength" then
    match kv.2 with
    | JValue.jnum q => if q.den = 1 then some { m with SignalStrength := some q.num } else none
    | JValue.null => some { m with SignalStrength := none }
    | _ => none
  else
    some m

/-- `json.Unmarshal` of an object into a `SensorDataMessage`: fold the
fields over the zero struct (later duplicate keys overwrite earlier ones,
as in Go). -/
def unmarshalSensorData (fields : List (String × JValue)) : Option SensorDataMessage :=
  fields.foldlM applySensorField zeroSensorDataMessage

/-- ParseSensorData (messages.go): unmarshal the payload, then default a
zero timestamp to the ingestion time `now` (`time.Now()`). -/
def ParseSensorData (payload : JPayload) (now : GoTime) : Option SensorDataMessage :=
  match payload with
  | JPayload.malformed => none
  | JPayload.object fields =>
    (unmarshalSensorData fields).map fun m =>
      if m.Timestamp = 0 then { m with Timestamp := now } else m

/-! ## Repository lookup model (repository.go) -/

/-- DeviceShipmentInfo (repository.go): device's active shipment and rules. -/
structure DeviceShipmentInfo where
  ShipmentID       : String
  ShipmentStatus   : String
  CustomerID       : String
  ProviderID       : String
  ShipperID        : Option String
  HasRules         : Bool
  ReportCycleSec   : Option Int
  TempMin          : Option ℚ
  TempMax          : Option ℚ
  HumidityMin      : Option ℚ
  HumidityMax      : Option ℚ
  LightMax         : Option ℚ
  TiltMaxAngle     : Option ℚ
  ImpactThresholdG : Option ℚ
deriving DecidableEq

/-- deviceShipmentRow (repository.go): the scanned row of the raw SQL query.
`RulesID` is `none` when the LEFT JOIN found no shipping_rules row. -/
structure DeviceShipmentRow where
  ShipmentID       : String
  ShipmentStatus   : String
  CustomerID       : String
  ProviderID       : String
  ShipperID        : Option String
  RulesID          : Option String
  ReportCycleSec   : Option Int
  TempMin          : Option ℚ
  TempMax          : Option ℚ
  HumidityMin      : Option ℚ
  HumidityMax      : Option ℚ
  LightMax         : Option ℚ
  TiltMaxAngle     : Option ℚ
  ImpactThresholdG : Option ℚ
deriving DecidableEq

/-- The error outcomes of `GetDeviceShipment`: a wrapped database failure, or
`gorm.ErrRecordNotFound` when the query matched no row. -/
inductive LookupErr where
  | dbError (msg : String)
  | recordNotFound
deriving DecidableEq

/-- GetDeviceShipment (repository.go): the raw query joins
devices → shipments → shipping_rules filtered to `s.status = 'in_transit'`;
its result is abstracted as `queryResult` (`Except.error` = database failure,
`Except.ok none` = zero rows affected, i.e. no in-transit shipment for the
device).  A scanned row is converted to `DeviceShipmentInfo` with
`HasRules := RulesID ≠ null`. -/
def GetDeviceShipment (queryResult : Except String (Option DeviceShipmentRow)) :
    Except LookupErr DeviceShipmentInfo :=
  match queryResult with
  | Except.error e => Except.error (LookupErr.dbError ("failed to fetch shipment info: " ++ e))
  | Except.ok none => Except.error LookupErr.recordNotFound
  | Except.ok (some row) =>
    Except.ok
      { ShipmentID := row.ShipmentID
        ShipmentStatus := row.ShipmentStatus
        CustomerID := row.CustomerID
        ProviderID := row.ProviderID
        ShipperID := row.ShipperID
        ReportCycleSec := row.ReportCycleSec
        TempMin := row.TempMin
        TempMax := row.TempMax
        HumidityMin := row.HumidityMin
        HumidityMax := row.HumidityMax
        LightMax := row.LightMax
        TiltMaxAngle := row.TiltMaxAngle
        ImpactThresholdG := row.ImpactThresholdG
        HasRules := row.RulesID.isSome }

/-! ## Alert engine (alert_engine.go) -/

/-- Alert (repository.go): an alert record. -/
structure Alert where
  Time           : GoTime
  DeviceID       : String
  ShipmentID     : String
  AlertType      : String
  Severity       : String
  ViolationType  : String
  TriggerValue   : String
  ThresholdValue : String
  Message        : String
deriving DecidableEq

/-- The temperature block of `CheckViolations` (alert_engine.go lines 33-61):
below-min and above-max checks, each appending one alert. -/
def temperatureAlerts (info : DeviceShipmentInfo) (data : SensorDataRecord) : List Alert :=
  match data.Temperature with
  | none => []
  | some t =>
    (match info.TempMin with
     | some mn =>
       if t < mn then
         [{ Time := data.Time, DeviceID := data.DeviceID, ShipmentID := info.ShipmentID,
            AlertType := "immediate", Severity := "high", ViolationType := "temperature",
            TriggerValue := sprintF2 t ++ "°C",
            ThresholdValue := "min: " ++ sprintF2 mn ++ "°C",
            Message := "Temperature " ++ sprintF2 t ++ "°C is below minimum threshold "
              ++ sprintF2 mn ++ "°C" }]
       else []
     | none => []) ++
    (match info.TempMax with
     | some mx =>
       if t > mx then
         [{ Time := data.Time, DeviceID := data.DeviceID, ShipmentID := info.ShipmentID,
            AlertType := "immediate", Severity := "high", ViolationType := "temperature",
            TriggerValue := sprintF2 t ++ "°C",
            ThresholdValue := "max: " ++ sprintF2 mx ++ "°C",
            Message := "Temperature " ++ sprintF2 t ++ "°C exceeds maximum threshold "
              ++ sprintF2 mx ++ "°C" }]
       else []
     | none => [])

/-- The humidity block of `CheckViolations` (alert_engine.go lines 63-91). -/
def humidityAlerts (info : DeviceShipmentInfo) (data : SensorDataRecord) : List Alert :=
  match data.Humidity with
  | none => []
  | some h =>
    (match info.HumidityMin with
     | some mn =>
       if h < mn then
         [{ Time := data.Time, DeviceID := data.DeviceID, ShipmentID := info.ShipmentID,
            AlertType := "immediate", Severity := "medium", ViolationType := "humidity",
            TriggerValue := sprintF2 h ++ "%",
            ThresholdValue := "min: " ++ sprintF2 mn ++ "%",
            Message := "Humidity " ++ sprintF2 h ++ "% is below minimum threshold "
              ++ sprintF2 mn ++ "%" }]
       else []
     | none => []) ++
    (match info.HumidityMax with
     | some mx =>
       if h > mx then
         [{ Time := data.Time, DeviceID := data.DeviceID, ShipmentID := info.ShipmentID,
            AlertType := "immediate", Severity := "medium", ViolationType := "humidity",
            TriggerValue := sprintF2 h ++ "%",
            ThresholdValue := "max: " ++ sprintF2 mx ++ "%",
            Message := "Humidity " ++ sprintF2 h ++ "% exceeds maximum threshold "
              ++ sprintF2 mx ++ "%" }]
       else []
     | none => [])

/-- The light-exposure block of `CheckViolations` (alert_engine.go lines 93-108). -/
def lightAlerts (info : DeviceShipmentInfo) (data : SensorDataRecord) : List Alert :=
  match data.LightLevel, info.LightMax with
  | some l, some mx =>
    if l > mx then
      [{ Time := data.Time, DeviceID := data.DeviceID, ShipmentID := info.ShipmentID,
         AlertType := "immediate", Severity := "medium", ViolationType := "light",
         TriggerValue := sprintF2 l ++ " lux",
         ThresholdValue := "max: " ++ sprintF2 mx ++ " lux",
         Message := "Light exposure " ++ sprintF2 l ++ " lux exceeds threshold "
           ++ sprintF2 mx ++ " lux" }]
    else []
  | _, _ => []

/-- The tilt-angle block of `CheckViolations` (alert_engine.go lines 110-125). -/
def tiltAlerts (info : DeviceShipmentInfo) (data : SensorDataRecord) : List Alert :=
  match data.TiltAngle, info.TiltMaxAngle with
  | some a, some mx =>
    if a > mx then
      [{ Time := data.Time, DeviceID := data.DeviceID, ShipmentID := info.ShipmentID,
         AlertType := "immediate", Severity := "high", ViolationType := "tilt",
         TriggerValue := sprintF2 a ++ "°",
         ThresholdValue := "max: " ++ sprintF2 mx ++ "°",
         Message := "Package tilted " ++ sprintF2 a ++ "° exceeding threshold "
           ++ sprintF2 mx ++ "°" }]
    else []
  | _, _ => []

/-- The impact block of `CheckViolations` (alert_engine.go lines 127-142). -/
def impactAlerts (info : DeviceShipmentInfo) (data : SensorDataRecord) : List Alert :=
  match data.ImpactG, info.ImpactThresholdG with
  | some g, some mx =>
    if g > mx then
      [{ Time := data.Time, DeviceID := data.DeviceID, ShipmentID := info.ShipmentID,
         AlertType := "immediate", Severity := "critical", ViolationType := "impact",
         TriggerValue := sprintF2 g ++ "G",
         ThresholdValue := "max: " ++ sprintF2 mx ++ "G",
         Message := "Impact detected: " ++ sprintF2 g ++ "G exceeds threshold "
           ++ sprintF2 mx ++ "G - potential damage!" }]
    else []
  | _, _ => []

/-- The battery block of `CheckViolations` (alert_engine.go lines 144-161):
fires below 20% regardless of the shipment's rule thresholds, severity
"low", upgraded to "medium" below 10%. -/
def batteryAlerts (info : DeviceShipmentInfo) (data : SensorDataRecord) : List Alert :=
  match data.BatteryLevel with
  | some b =>
    if b < 20 then
      [{ Time := data.Time, DeviceID := data.DeviceID, ShipmentID := info.ShipmentID,
         AlertType := "immediate",
         Severity := if b < 10 then "medium" else "low",
         ViolationType := "battery",
         TriggerValue := toString b ++ "%",
         ThresholdValue := "20%",
         Message := "Low battery: " ++ toString b ++ "%" }]
    else []
  | none => []

/-- CheckViolations (alert_engine.go): looks up the device's shipment via the
repository (abstracted as the function `repo` applied to the device id);
ANY lookup error is swallowed (`return nil, nil`), as is `HasRules = false`.
Otherwise the alert slice is the in-order concatenation of the six
dimension blocks; the returned error is `nil` on every path. -/
def CheckViolations (repo : String → Except LookupErr DeviceShipmentInfo)
    (data : SensorDataRecord) : List Alert × Option String :=
  match repo data.DeviceID with
  | Except.error _ => ([], none)
  | Except.ok info =>
    if info.HasRules = false then ([], none)
    else
      (temperatureAlerts info data ++ humidityAlerts info data ++
       lightAlerts info data ++ tiltAlerts info data ++
       impactAlerts info data ++ batteryAlerts info data, none)

/-! ## Processor model (processor.go)

The processor's sensor channel is modelled by its queue contents plus a
`closed` flag; the lifetime context by a `cancelled` flag.  `ProcessSensorData`
is a three-case Go `select`:

```
select {
case p.sensorChan <- msg:   // received++, BufferSize = len(chan)
case <-p.ctx.Done():        // return
default:                    // drop, failed++
}
```

Per the Go specification, a select case "can proceed" when its communication
is possible; a send on a closed channel always can proceed — by causing a
run-time panic — and a receive on a cancelled context's `Done` channel can
proceed; when several cases can proceed one is chosen pseudo-randomly, and
the `default` branch runs only when none can.  The model therefore returns
the LIST of possible outcomes of one call. -/

/-- IngestMetrics (metrics.go). -/
structure IngestMetrics where
  MessagesReceived      : Nat
  MessagesProcessed     : Nat
  MessagesFailed        : Nat
  RecordsInserted       : Nat
  AlertsGenerated       : Nat
  LastProcessedAt       : GoTime
  AverageProcessingTime : Int
  BufferSize            : Nat
deriving DecidableEq

/-- Zeroed metrics, as built by `NewMetricsTracker`. -/
def zeroMetrics : IngestMetrics :=
  { MessagesReceived := 0, MessagesProcessed := 0, MessagesFailed := 0,
    RecordsInserted := 0, AlertsGenerated := 0, LastProcessedAt := 0,
    AverageProcessingTime := 0, BufferSize := 0 }

/-- The processor state visible to `ProcessSensorData`: the sensor channel
(queue contents, capacity `bufferSize`, `closed` flag), the lifetime
context (`cancelled`), and the metrics. -/
structure ProcState where
  queue      : List SensorDataMessage
  bufferSize : Nat
  closed     : Bool
  cancelled  : Bool
  metrics    : IngestMetrics
deriving DecidableEq

/-- A fresh, started processor as produced by `NewProcessor` + `Start`:
empty channel of capacity `bufferSize`, context live, channel open,
zeroed metrics. -/
def startedProcState (bufferSize : Nat) : ProcState :=
  { queue := [], bufferSize := bufferSize, closed := false, cancelled := false,
    metrics := zeroMetrics }

/-- The processor state after `Stop()` has returned (processor.go lines
85-101): the context is cancelled, the sensor channel is closed, and the
workers have drained it before exiting. -/
def stoppedProcState (st : ProcState) : ProcState :=
  { st with cancelled := true, closed := true, queue := [] }

/-- One possible outcome of a `ProcessSensorData` call, with the resulting
processor state. -/
inductive PSDOutcome where
  | delivered (st : ProcState)
  | returned (st : ProcState)
  | dropped (st : ProcState)
  | panicked (st : ProcState)
deriving DecidableEq

/-- The state component of an outcome. -/
def PSDOutcome.state : PSDOutcome → ProcState
  | delivered st => st
  | returned st => st
  | dropped st => st
  | panicked st => st

/-- ProcessSensorData (processor.go lines 103-119): all possible outcomes of
one call under Go select semantics.  The send case can proceed when the
channel is closed (panicking) or has space (delivering and updating
`MessagesReceived`/`BufferSize`); the context case can proceed when the
context is cancelled (returning without metrics updates); the `default`
branch (drop + `MessagesFailed++`) runs only when neither can proceed. -/
def ProcessSensorData (st : ProcState) (msg : SensorDataMessage) : List PSDOutcome :=
  let sendCase : List PSDOutcome :=
    if st.closed then [PSDOutcome.panicked st]
    else if st.queue.length < st.bufferSize then
      let q := st.queue ++ [msg]
      [PSDOutcome.delivered
        { st with queue := q,
                  metrics := { st.metrics with
                    MessagesReceived := st.metrics.MessagesReceived + 1,
                    BufferSize := q.length } }]
    else []
  let ctxCase : List PSDOutcome :=
    if st.cancelled then [PSDOutcome.returned st] else []
  let ready := sendCase ++ ctxCase
  if ready.isEmpty then
    [PSDOutcome.dropped
      { st with metrics := { st.metrics with
          MessagesFailed := st.metrics.MessagesFailed + 1 } }]
  else ready

/-- Run a sequence of `ProcessSensorData` calls from `st`, one per message,
succeeding only while each call is deterministic (a single possible
outcome) and neither panics nor merely returns; `none` records that some
call could panic or behave nondeterministically. -/
def runSensorMsgs : ProcState → List SensorDataMessage → Option ProcState
  | st, [] => some st
  | st, msg :: rest =>
    match ProcessSensorData st msg with
    | [PSDOutcome.delivered st'] => runSensorMsgs st' rest
    | [PSDOutcome.dropped st'] => runSensorMsgs st' rest
    | _ => none

/-- handleSensorMessage (mqtt_client.go lines 132-141): parse the payload;
on a parse error log and return (processor untouched, no metrics update);
otherwise hand the message to `ProcessSensorData`.  Returns the possible
resulting processor states. -/
def handleSensorMessage (st : ProcState) (now : GoTime) (payload : JPayload) :
    List ProcState :=
  match ParseSensorData payload now with
  | none => [st]
  | some msg => (ProcessSensorData st msg).map PSDOutcome.state

/-- Association-list lookup modelling the `locationCache` map read
`p.locationCache[msg.DeviceID]`. -/
def lookupCache (cache : List (String × LocationDataMessage)) (k : String) :
    Option LocationDataMessage :=
  (cache.find? fun p => p.1 == k).map Prod.snd

/-- processSensorMessage (processor.go lines 216-298), the synchronous part
run by a sensor worker: validate, parse the device UUID, merge the cached
location, append the record to the batch buffer and report whether the
buffer reached `batchSize` (the async alert/heartbeat tasks and the flush
itself are modelled separately).  Errors are returned to the worker, which
counts the message as failed. -/
def processSensorMessage (cache : List (String × LocationDataMessage))
    (sensorBuffer : List SensorDataRecord) (batchSize : Nat)
    (msg : SensorDataMessage) :
    Except ValidationError (List SensorDataRecord × SensorDataRecord × Bool) :=
  match ValidateSensorData msg with
  | some e => Except.error e
  | none =>
    match uuidParse msg.DeviceID with
    | none => Except.error ⟨"device_id", "invalid UUID"⟩
    | some deviceID =>
      let location := lookupCache cache msg.DeviceID
      let record : SensorDataRecord :=
        { Time := msg.Timestamp
          DeviceID := deviceID
          Latitude := location.map LocationDataMessage.Latitude
          Longitude := location.map LocationDataMessage.Longitude
          Altitude := location.bind LocationDataMessage.Altitude
          Speed := location.bind LocationDataMessage.Speed
          Temperature := msg.Temperature
          Humidity := msg.Humidity
          LightLevel := msg.LightLevel
          TiltAngle := msg.TiltAngle
          ImpactG := msg.ImpactG
          BatteryLevel := msg.BatteryLevel
          SignalStrength := msg.SignalStrength }
      let buffer := sensorBuffer ++ [record]
      Except.ok (buffer, record, decide (batchSize ≤ buffer.length))

/-- The state `flushBatch` touches: the shared batch buffer and the metrics. -/
structure FlushState where
  sensorBuffer : List SensorDataRecord
  metrics      : IngestMetrics
deriving DecidableEq

/-- flushBatch (processor.go lines 317-348): a no-op on an empty buffer;
otherwise swaps the buffer for an empty one and hands the swapped-out batch
to `BatchInsertSensorData` in one call (second component; `none` = no
insert attempted).  `insertOk` abstracts the repository result: on failure
`MessagesFailed` grows by the batch size and the batch is discarded, on
success `RecordsInserted` grows by the batch size. -/
def flushBatch (st : FlushState) (insertOk : Bool) :
    FlushState × Option (List SensorDataRecord) :=
  if st.sensorBuffer.isEmpty then (st, none)
  else
    let batch := st.sensorBuffer
    if insertOk then
      ({ sensorBuffer := [],
         metrics := { st.metrics with
           RecordsInserted := st.metrics.RecordsInserted + batch.length } },
       some batch)
    else
      ({ sensorBuffer := [],
         metrics := { st.metrics with
           MessagesFailed := st.metrics.MessagesFailed + batch.length } },
       some batch)

/-! ## MQTT ingestion client model (mqtt_client.go)

The transport (`pkg/mqtt` client) is abstracted by the success/failure of
its operations: `connectOk` for `Connect`, `subOk t` for `Subscribe(t, ...)`.
Each modelled method additionally returns the trace of transport actions it
performed, so idempotence ("does not reconnect or re-subscribe") is a
statement about the empty trace. -/

/-- MQTTIngestionConfig (mqtt_client.go): the four topic names (empty string
= not configured, as in Go). -/
structure MQTTIngestionConfig where
  SensorTopic    : String
  LocationTopic  : String
  StatusTopic    : String
  HeartbeatTopic : String
  QoS            : Nat
deriving DecidableEq

/-- The mutable state of `MQTTIngestionClient` guarded by its mutex. -/
structure MQTTClientState where
  started       : Bool
  subscriptions : List String
deriving DecidableEq

/-- A transport-level action performed against the broker. -/
inductive MQTTAction where
  | connect
  | subscribe (topic : String)
  | unsubscribe (topics : List String)
  | disconnect
deriving DecidableEq

/-- The topics `Start` subscribes to, in source order: each non-empty
configured topic gets exactly one handler. -/
def configuredTopics (cfg : MQTTIngestionConfig) : List String :=
  (if cfg.SensorTopic ≠ "" then [cfg.SensorTopic] else []) ++
  (if cfg.LocationTopic ≠ "" then [cfg.LocationTopic] else []) ++
  (if cfg.StatusTopic ≠ "" then [cfg.StatusTopic] else []) ++
  (if cfg.HeartbeatTopic ≠ "" then [cfg.HeartbeatTopic] else [])

/-- The subscription loop of `Start` (mqtt_client.go lines 99-106): subscribe
to each topic in turn, appending each successful topic to
`c.subscriptions`; on the first failure disconnect and return the error,
keeping the subscriptions appended so far. -/
def subscribeTopics (subOk : String → Bool) (st : MQTTClientState) :
    List String → MQTTClientState × Option String × List MQTTAction
  | [] => (st, none, [])
  | t :: ts =>
    if subOk t then
      let st' := { st with subscriptions := st.subscriptions ++ [t] }
      let r := subscribeTopics subOk st' ts
      (r.1, r.2.1, MQTTAction.subscribe t :: r.2.2)
    else
      (st, some ("subscribe failed for topic " ++ t),
       [MQTTAction.subscribe t, MQTTAction.disconnect])

/-- MQTTIngestionClient.Start (mqtt_client.go lines 50-110): returns
immediately when already started; connects (error on failure); errors when
no topic is configured; subscribes to every configured topic, disconnecting
on the first subscribe failure; marks the client started on success.
Result: (new state, returned error, transport actions performed). -/
def clientStart (cfg : MQTTIngestionConfig) (connectOk : Bool)
    (subOk : String → Bool) (st : MQTTClientState) :
    MQTTClientState × Option String × List MQTTAction :=
  if st.started then (st, none, [])
  else if connectOk = false then
    (st, some "failed to connect to MQTT broker", [MQTTAction.connect])
  else
    let subs := configuredTopics cfg
    if subs.isEmpty then
      (st, some "no MQTT topics configured for ingestion", [MQTTAction.connect])
    else
      let r := subscribeTopics subOk st subs
      match r.2.1 with
      | some e => (r.1, some e, MQTTAction.connect :: r.2.2)
      | none => ({ r.1 with started := true }, none, MQTTAction.connect :: r.2.2)

/-- MQTTIngestionClient.Stop (mqtt_client.go lines 112-130): returns
immediately when not started; otherwise unsubscribes from the recorded
topics (when any), disconnects, and clears the started flag and the
subscription list. -/
def clientStop (st : MQTTClientState) : MQTTClientState × List MQTTAction :=
  if st.started = false then (st, [])
  else
    ({ started := false, subscriptions := [] },
     (if st.subscriptions.isEmpty then [] else [MQTTAction.unsubscribe st.subscriptions])
       ++ [MQTTAction.disconnect])

/-! ## Concrete inputs used by example conjuncts, witnesses and counterexamples -/

/-- An in-transit shipment whose rules configure only `tempMax = 30.0`
(the spec's example scenario). -/
def infoC3 : DeviceShipmentInfo :=
  { ShipmentID := "22222222-2222-2222-2222-222222222222", ShipmentStatus := "in_transit",
    CustomerID := "", ProviderID := "", ShipperID := none, HasRules := true,
    ReportCycleSec := none, TempMin := none, TempMax := some 30,
    HumidityMin := none, HumidityMax := none, LightMax := none,
    TiltMaxAngle := none, ImpactThresholdG := none }

/-- A repository in which every device maps to `infoC3`. -/
def repoC3 : String → Except LookupErr DeviceShipmentInfo := fun _ => Except.ok infoC3

/-- The spec's example reading: temperature 45.0 for device 11111111-…. -/
def dataC3 : SensorDataRecord :=
  { Time := 1, DeviceID := "11111111-1111-1111-1111-111111111111",
    Latitude := none, Longitude := none, Altitude := none, Speed := none,
    Temperature := some 45, Humidity := none, LightLevel := none,
    TiltAngle := none, ImpactG := none, BatteryLevel := none, SignalStrength := none }

/-- A rule set with both temperature bounds (0 and 30), for witnesses. -/
def infoC3w : DeviceShipmentInfo := { infoC3 with TempMin := some 0 }

/-- A repository in which every device maps to `infoC3w`. -/
def repoC3w : String → Except LookupErr DeviceShipmentInfo := fun _ => Except.ok infoC3w

/-- The spec's example reading with battery level 8. -/
def dataC7 : SensorDataRecord := { dataC3 with Temperature := none, BatteryLevel := some 8 }

/-- A joined query row whose LEFT JOIN found no shipping_rules row. -/
def rowC4 : DeviceShipmentRow :=
  { ShipmentID := "22222222-2222-2222-2222-222222222222", ShipmentStatus := "in_transit",
    CustomerID := "", ProviderID := "", ShipperID := none, RulesID := none,
    ReportCycleSec := none, TempMin := none, TempMax := none,
    HumidityMin := none, HumidityMax := none, LightMax := none,
    TiltMaxAngle := none, ImpactThresholdG := none }

/-- A well-formed sensor message with no optional fields. -/
def msgC1 : SensorDataMessage :=
  { DeviceID := "11111111-1111-1111-1111-111111111111", Timestamp := 5,
    Temperature := none, Humidity := none, LightLevel := none,
    TiltAngle := none, ImpactG := none, BatteryLevel := none, SignalStrength := none }

/-- A payload that parses fine but whose temperature 200 is out of range. -/
def payloadC2 : JPayload :=
  JPayload.object
    [("device_id", JValue.jstr "11111111-1111-1111-1111-111111111111"),
     ("timestamp", JValue.jtime 100),
     ("temperature", JValue.jnum 200)]

/-- The message `payloadC2` decodes to. -/
def msgC2 : SensorDataMessage :=
  { DeviceID := "11111111-1111-1111-1111-111111111111", Timestamp := 100,
    Temperature := some 200, Humidity := none, LightLevel := none,
    TiltAngle := none, ImpactG := none, BatteryLevel := none, SignalStrength := none }

/-- A sensor message with every optional field set and a non-zero timestamp. -/
def msgC8 : SensorDataMessage :=
  { DeviceID := "11111111-1111-1111-1111-111111111111", Timestamp := 7,
    Temperature := some (45/2), Humidity := some 55, LightLevel := some 10,
    TiltAngle := some 15, ImpactG := some 2, BatteryLevel := some 80,
    SignalStrength := some (-70) }

/-- A flush state holding one buffered record. -/
def flushStateC6 : FlushState := { sensorBuffer := [dataC3], metrics := zeroMetrics }

/-- An MQTT configuration with only the sensor topic configured. -/
def cfgC9 : MQTTIngestionConfig :=
  { SensorTopic := "devices/sensor", LocationTopic := "", StatusTopic := "",
    HeartbeatTopic := "", QoS := 1 }

/-- An MQTT configuration with no topic configured. -/
def emptyCfgC9 : MQTTIngestionConfig :=
  { SensorTopic := "", LocationTopic := "", StatusTopic := "", HeartbeatTopic := "", QoS := 1 }

/-- A client that has already completed `Start`. -/
def startedClientC9 : MQTTClientState := { started := true, subscriptions := ["devices/sensor"] }

/-- A freshly constructed, never started client. -/
def freshClientC9 : MQTTClientState := { started := false, subscriptions := [] }

/-- A transport on which every subscribe succeeds. -/
def subOkC9 : String → Bool := fun _ => true

/-! ## Lemmas about the alert blocks -/

/-- Every alert the humidity block emits has violation type "humidity". -/
lemma mem_humidityAlerts_vt {info : DeviceShipmentInfo} {data : SensorDataRecord}
    {a : Alert} (ha : a ∈ humidityAlerts info data) : a.ViolationType = "humidity" := by
  unfold humidityAlerts at ha
  repeat' split at ha
  all_goals try simp_all
  all_goals (rcases ha with rfl | rfl <;> simp)

/-- Every alert the temperature block emits has violation type "temperature"
and severity "high". -/
lemma mem_temperatureAlerts_vt {info : DeviceShipmentInfo} {data : SensorDataRecord}
    {a : Alert} (ha : a ∈ temperatureAlerts info data) :
    a.ViolationType = "temperature" ∧ a.Severity = "high" := by
  unfold temperatureAlerts at ha
  repeat' split at ha
  all_goals try simp_all
  all_goals (rcases ha with rfl | rfl <;> simp)

/-- Every alert the light block emits has violation type "light". -/
lemma mem_lightAlerts_vt {info : DeviceShipmentInfo} {data : SensorDataRecord}
    {a : Alert} (ha : a ∈ lightAlerts info data) : a.ViolationType = "light" := by
  unfold lightAlerts at ha
  repeat' split at ha
  all_goals simp_all

/-- Every alert the tilt block emits has violation type "tilt". -/
lemma mem_tiltAlerts_vt {info : DeviceShipmentInfo} {data : SensorDataRecord}
    {a : Alert} (ha : a ∈ tiltAlerts info data) : a.ViolationType = "tilt" := by
  unfold tiltAlerts at ha
  repeat' split at ha
  all_goals simp_all

/-- Every alert the impact block emits has violation type "impact". -/
lemma mem_impactAlerts_vt {info : DeviceShipmentInfo} {data : SensorDataRecord}
    {a : Alert} (ha : a ∈ impactAlerts info data) : a.ViolationType = "impact" := by
  unfold impactAlerts at ha
  repeat' split at ha
  all_goals simp_all

/-- Every alert the battery block emits has violation type "battery". -/
lemma mem_batteryAlerts_vt {info : DeviceShipmentInfo} {data : SensorDataRecord}
    {a : Alert} (ha : a ∈ batteryAlerts info data) : a.ViolationType = "battery" := by
  unfold batteryAlerts at ha
  repeat' split at ha
  all_goals simp_all

/-- A list of alerts sharing one violation type filters to nothing under a
different violation type. -/
lemma filter_vt_eq_nil {l : List Alert} {v w : String}
    (hl : ∀ a ∈ l, a.ViolationType = w) (hvw : ¬ w = v) :
    l.filter (fun a => a.ViolationType == v) = [] := by
  rw [List.filter_eq_nil_iff]
  intro a ha
  simp [hl a ha, hvw]

/-- With both bounds configured, `mn ≤ mx`, and a temperature outside them,
the temperature block emits exactly one alert. -/
lemma temperatureAlerts_out_of_range {info : DeviceShipmentInfo}
    {data : SensorDataRecord} {mn mx t : ℚ}
    (hmin : info.TempMin = some mn) (hmax : info.TempMax = some mx)
    (ht : data.Temperature = some t) (hle : mn ≤ mx) (hout : t < mn ∨ mx < t) :
    ∃ a : Alert, temperatureAlerts info data = [a] := by
  unfold temperatureAlerts
  simp only [ht, hmin, hmax]
  rcases hout with h | h
  · have h2 : ¬ mx < t := by linarith
    rw [if_pos h, if_neg h2]
    exact ⟨_, rfl⟩
  · have h2 : ¬ t < mn := by linarith
    rw [if_neg h2, if_pos h]
    exact ⟨_, rfl⟩

/-- With a battery level below 20, the battery block emits exactly the low
battery alert, with severity "medium" below 10 and "low" otherwise. -/
lemma batteryAlerts_low {info : DeviceShipmentInfo} {data : SensorDataRecord}
    {b : Int} (hb : data.BatteryLevel = some b) (h20 : b < 20) :
    batteryAlerts info data =
      [{ Time := data.Time, DeviceID := data.DeviceID, ShipmentID := info.ShipmentID,
         AlertType := "immediate", Severity := if b < 10 then "medium" else "low",
         ViolationType := "battery", TriggerValue := toString b ++ "%",
         ThresholdValue := "20%", Message := "Low battery: " ++ toString b ++ "%" }] := by
  unfold batteryAlerts
  simp only [hb]
  rw [if_pos h20]

/-- When the lookup returns rules, `CheckViolations` is the concatenation of
the six dimension blocks with a nil error. -/
lemma CheckViolations_ok {repo : String → Except LookupErr DeviceShipmentInfo}
    {data : SensorDataRecord} {info : DeviceShipmentInfo}
    (hrepo : repo data.DeviceID = Except.ok info) (hrules : info.HasRules = true) :
    CheckViolations repo data =
      (temperatureAlerts info data ++ humidityAlerts info data ++ lightAlerts info data ++
       tiltAlerts info data ++ impactAlerts info data ++ batteryAlerts info data, none) := by
  unfold CheckViolations
  simp only [hrepo, hrules]
  simp

/-- C3: for every valid reading whose temperature lies outside the active
shipment's configured bounds `[tempMin, tempMax]`, `CheckViolations` returns
exactly one alert of violation type "temperature", and every temperature
alert it returns has severity "high"; in particular, temperature 45.0
against an active rule `tempMax = 30.0` yields exactly one high-severity
temperature alert whose message mentions "45.00°C" and "30.00°C". -/
theorem CheckViolations_temperature_one_high_alert :
    (∀ (repo : String → Except LookupErr DeviceShipmentInfo) (data : SensorDataRecord)
       (info : DeviceShipmentInfo) (mn mx t : ℚ),
      repo data.DeviceID = Except.ok info → info.HasRules = true →
      info.TempMin = some mn → info.TempMax = some mx → mn ≤ mx →
      data.Temperature = some t → (t < mn ∨ mx < t) →
      (((CheckViolations repo data).1.filter
          (fun a => a.ViolationType == "temperature")).length = 1 ∧
       ∀ a ∈ (CheckViolations repo data).1,
         a.ViolationType = "temperature" → a.Severity = "high")) ∧
    ((CheckViolations repoC3 dataC3).1.map (fun a => (a.Severity, a.ViolationType)) =
        [("high", "temperature")] ∧
     ∀ a ∈ (CheckViolations repoC3 dataC3).1,
       strContains a.Message "45.00°C" = true ∧ strContains a.Message "30.00°C" = true) := by
  constructor
  · intro repo data info mn mx t hrepo hrules hmin hmax hle ht hout
    have hck := CheckViolations_ok hrepo hrules
    obtain ⟨a0, hta⟩ := temperatureAlerts_out_of_range hmin hmax ht hle hout
    have ha0 : a0 ∈ temperatureAlerts info data := by
      rw [hta]; exact List.mem_singleton_self _
    have hvt0 := mem_temperatureAlerts_vt ha0
    constructor
    · rw [hck]
      simp only [List.filter_append, hta]
      rw [filter_vt_eq_nil (fun a ha => mem_humidityAlerts_vt ha) (by decide),
          filter_vt_eq_nil (fun a ha => mem_lightAlerts_vt ha) (by decide),
          filter_vt_eq_nil (fun a ha => mem_tiltAlerts_vt ha) (by decide),
          filter_vt_eq_nil (fun a ha => mem_impactAlerts_vt ha) (by decide),
          filter_vt_eq_nil (fun a ha => mem_batteryAlerts_vt ha) (by decide)]
      simp [List.filter, hvt0.1]
    · intro a ha hvt
      rw [hck] at ha
      simp only [List.mem_append] at ha
      rcases ha with ((((ha | ha) | ha) | ha) | ha) | ha
      · exact (mem_temperatureAlerts_vt ha).2
      · exact absurd hvt (by simp [mem_humidityAlerts_vt ha])
      · exact absurd hvt (by simp [mem_lightAlerts_vt ha])
      · exact absurd hvt (by simp [mem_tiltAlerts_vt ha])
      · exact absurd hvt (by simp [mem_impactAlerts_vt ha])
      · exact absurd hvt (by simp [mem_batteryAlerts_vt ha])
  · exact ⟨by decide, by decide⟩

/-- C3 witness: the general part of the theorem applied to the reading 45.0
against rules `tempMin = 0`, `tempMax = 30`. -/
theorem CheckViolations_temperature_one_high_alert_witness :
    ((CheckViolations repoC3w dataC3).1.filter
        (fun a => a.ViolationType == "temperature")).length = 1 ∧
    ∀ a ∈ (CheckViolations repoC3w dataC3).1,
      a.ViolationType = "temperature" → a.Severity = "high" :=
  CheckViolations_temperature_one_high_alert.1 repoC3w dataC3 infoC3w 0 30 45
    rfl rfl rfl rfl (by norm_num) rfl (Or.inr (by norm_num))

/-- C7: for every reading with a battery level below 20 evaluated for a
device with an in-transit shipment and configured rules, `CheckViolations`
emits exactly one alert of violation type "battery" with threshold value
"20%", severity "low" at level 10 or above and "medium" below 10; in
particular battery level 8 yields exactly one alert, "medium"/"battery". -/
theorem CheckViolations_battery_low_alert :
    (∀ (repo : String → Except LookupErr DeviceShipmentInfo) (data : SensorDataRecord)
       (info : DeviceShipmentInfo) (b : Int),
      repo data.DeviceID = Except.ok info → info.HasRules = true →
      data.BatteryLevel = some b → b < 20 →
      (((CheckViolations repo data).1.filter
          (fun a => a.ViolationType == "battery")).length = 1 ∧
       ∀ a ∈ (CheckViolations repo data).1, a.ViolationType = "battery" →
         a.ThresholdValue = "20%" ∧
         (10 ≤ b → a.Severity = "low") ∧ (b < 10 → a.Severity = "medium"))) ∧
    ((CheckViolations repoC3 dataC7).1.map (fun a => (a.Severity, a.ViolationType)) =
      [("medium", "battery")]) := by
  constructor
  · intro repo data info b hrepo hrules hb h20
    have hck := CheckViolations_ok hrepo hrules
    have hba := @batteryAlerts_low info data b hb h20
    constructor
    · rw [hck]
      simp only [List.filter_append, hba]
      rw [filter_vt_eq_nil (fun a ha => (mem_temperatureAlerts_vt ha).1) (by decide),
          filter_vt_eq_nil (fun a ha => mem_humidityAlerts_vt ha) (by decide),
          filter_vt_eq_nil (fun a ha => mem_lightAlerts_vt ha) (by decide),
          filter_vt_eq_nil (fun a ha => mem_tiltAlerts_vt ha) (by decide),
          filter_vt_eq_nil (fun a ha => mem_impactAlerts_vt ha) (by decide)]
      simp [List.filter]
    · intro a ha hvt
      rw [hck] at ha
      simp only [List.mem_append] at ha
      rcases ha with ((((ha | ha) | ha) | ha) | ha) | ha
      · exact absurd hvt (by simp [(mem_temperatureAlerts_vt ha).1])
      · exact absurd hvt (by simp [mem_humidityAlerts_vt ha])
      · exact absurd hvt (by simp [mem_lightAlerts_vt ha])
      · exact absurd hvt (by simp [mem_tiltAlerts_vt ha])
      · exact absurd hvt (by simp [mem_impactAlerts_vt ha])
      · rw [hba] at ha
        rcases List.mem_singleton.mp ha with rfl
        refine ⟨rfl, fun h10 => ?_, fun h10 => ?_⟩
        · simp only []
          rw [if_neg (by omega)]
        · simp only []
          rw [if_pos h10]
  · decide

/-- C7 witness: the general part of the theorem applied to the battery-8
example reading against the in-transit shipment with rules `infoC3`. -/
theorem CheckViolations_battery_low_alert_witness :
    ((CheckViolations repoC3 dataC7).1.filter
        (fun a => a.ViolationType == "battery")).length = 1 ∧
    ∀ a ∈ (CheckViolations repoC3 dataC7).1, a.ViolationType = "battery" →
      a.ThresholdValue = "20%" ∧
      (10 ≤ (8 : Int) → a.Severity = "low") ∧ ((8 : Int) < 10 → a.Severity = "medium") :=
  CheckViolations_battery_low_alert.1 repoC3 dataC7 infoC3 8 rfl rfl rfl (by norm_num)

/-- C4: for every reading evaluated for a device with no in-transit shipment
(the lookup query returns zero rows) or whose shipment has no shipping_rules
row configured, `CheckViolations` returns an empty alert slice and no error. -/
theorem CheckViolations_no_shipment_or_rules_empty :
    ∀ (data : SensorDataRecord) (queryResult : Except String (Option DeviceShipmentRow)),
      (queryResult = Except.ok none →
        CheckViolations (fun _ => GetDeviceShipment queryResult) data = ([], none)) ∧
      (∀ row : DeviceShipmentRow, queryResult = Except.ok (some row) → row.RulesID = none →
        CheckViolations (fun _ => GetDeviceShipment queryResult) data = ([], none)) := by
  intro data queryResult
  constructor
  · intro h
    subst h
    rfl
  · intro row h hrules
    subst h
    unfold CheckViolations GetDeviceShipment
    simp [hrules]

/-- C4 witness: the theorem applied to a zero-row lookup and to a row whose
LEFT JOIN found no rules. -/
theorem CheckViolations_no_shipment_or_rules_empty_witness :
    CheckViolations (fun _ => GetDeviceShipment (Except.ok none)) dataC3 = ([], none) ∧
    CheckViolations (fun _ => GetDeviceShipment (Except.ok (some rowC4))) dataC3 = ([], none) :=
  ⟨(CheckViolations_no_shipment_or_rules_empty dataC3 (Except.ok none)).1 rfl,
   (CheckViolations_no_shipment_or_rules_empty dataC3 (Except.ok (some rowC4))).2 rowC4 rfl rfl⟩

/-- C10: `CheckViolations` returns a nil error on every execution path, and
any lookup error — a genuine database failure just as much as the absence of
an in-transit shipment — yields the identical result `([], none)`, so a
caller cannot distinguish a failed rule lookup from a device with no active
shipment or rules. -/
theorem CheckViolations_error_swallowed :
    (∀ (repo : String → Except LookupErr DeviceShipmentInfo) (data : SensorDataRecord),
      (CheckViolations repo data).2 = none) ∧
    (∀ (e : LookupErr) (data : SensorDataRecord),
      CheckViolations (fun _ => Except.error e) data = ([], none)) ∧
    (∀ (dbMsg : String) (data : SensorDataRecord),
      CheckViolations (fun _ => Except.error (LookupErr.dbError dbMsg)) data =
      CheckViolations (fun _ => Except.error LookupErr.recordNotFound) data) := by
  refine ⟨fun repo data => ?_, fun e data => rfl, fun dbMsg data => rfl⟩
  unfold CheckViolations
  rcases repo data.DeviceID with _ | info
  · rfl
  · dsimp only
    split <;> rfl

/-- Invariant of a no-consumer run of `ProcessSensorData` calls from any
live (open channel, uncancelled context) state: every call is deterministic
and panic-free, the first `bufferSize - queue.length` messages are enqueued
and counted received, the rest are dropped and counted failed. -/
lemma runSensorMsgs_run (msgs : List SensorDataMessage) :
    ∀ st : ProcState, st.closed = false → st.cancelled = false →
      st.queue.length ≤ st.bufferSize →
      ∃ stF, runSensorMsgs st msgs = some stF ∧
        stF.queue = st.queue ++ msgs.take (st.bufferSize - st.queue.length) ∧
        stF.metrics.MessagesReceived =
          st.metrics.MessagesReceived + min msgs.length (st.bufferSize - st.queue.length) ∧
        stF.metrics.MessagesFailed =
          st.metrics.MessagesFailed + (msgs.length - (st.bufferSize - st.queue.length)) := by
  induction msgs with
  | nil =>
    intro st h1 h2 h3
    exact ⟨st, rfl, by simp, by simp, by simp⟩
  | cons m rest ih =>
    intro st h1 h2 h3
    by_cases hq : st.queue.length < st.bufferSize
    · have hstep : ProcessSensorData st m =
        [PSDOutcome.delivered
          { st with queue := st.queue ++ [m],
                    metrics := { st.metrics with
                      MessagesReceived := st.metrics.MessagesReceived + 1,
                      BufferSize := (st.queue ++ [m]).length } }] := by
        unfold ProcessSensorData
        simp [h1, h2, hq]
      obtain ⟨stF, hrun, hqueue, hrcv, hfail⟩ :=
        ih { st with queue := st.queue ++ [m],
                     metrics := { st.metrics with
                       MessagesReceived := st.metrics.MessagesReceived + 1,
                       BufferSize := (st.queue ++ [m]).length } }
          h1 h2 (by simp only [List.length_append, List.length_singleton]; omega)
      dsimp only at hqueue hrcv hfail
      refine ⟨stF, ?_, ?_, ?_, ?_⟩
      · simp only [runSensorMsgs, hstep]
        exact hrun
      · rw [hqueue]
        simp only [List.length_append, List.length_singleton]
        have hn : st.bufferSize - st.queue.length =
            (st.bufferSize - (st.queue.length + 1)) + 1 := by omega
        rw [hn, List.take_succ_cons, List.append_assoc]
        rfl
      · rw [hrcv]
        simp only [List.length_append, List.length_singleton, List.length_nil,
          List.length_cons, Nat.min_def]
        split_ifs <;> omega
      · rw [hfail]
        simp only [List.length_append, List.length_singleton, List.length_nil,
          List.length_cons]
        omega
    · have hstep : ProcessSensorData st m =
        [PSDOutcome.dropped
          { st with metrics := { st.metrics with
              MessagesFailed := st.metrics.MessagesFailed + 1 } }] := by
        unfold ProcessSensorData
        simp [h1, h2, hq]
      obtain ⟨stF, hrun, hqueue, hrcv, hfail⟩ :=
        ih { st with metrics := { st.metrics with
               MessagesFailed := st.metrics.MessagesFailed + 1 } }
          h1 h2 h3
      dsimp only at hqueue hrcv hfail
      have hq0 : st.bufferSize - st.queue.length = 0 := by omega
      refine ⟨stF, ?_, ?_, ?_, ?_⟩
      · simp only [runSensorMsgs, hstep]
        exact hrun
      · rw [hqueue]
        simp [hq0]
      · rw [hrcv]
        simp [hq0]
      · rw [hfail]
        simp only [List.length_cons, hq0]
        omega

/-- C5: with the processor started and no worker consuming, enqueueing `N`
messages via `ProcessSensorData` with `N` above the sensor channel capacity
never blocks or panics (every call has the one deterministic non-panicking
outcome `runSensorMsgs` demands): exactly the first `capacity` messages are
enqueued, `MessagesReceived` ends at `capacity`, and each of the remaining
`N - capacity` messages is dropped, leaving `MessagesFailed` at exactly
`N - capacity`. -/
theorem ProcessSensorData_backpressure (cap : Nat) (msgs : List SensorDataMessage)
    (h : cap < msgs.length) :
    ∃ stF, runSensorMsgs (startedProcState cap) msgs = some stF ∧
      stF.queue = msgs.take cap ∧
      stF.metrics.MessagesReceived = cap ∧
      stF.metrics.MessagesFailed = msgs.length - cap := by
  obtain ⟨stF, h1, h2, h3, h4⟩ :=
    runSensorMsgs_run msgs (startedProcState cap) rfl rfl (by simp [startedProcState])
  simp only [startedProcState, zeroMetrics, List.length_nil, Nat.sub_zero,
    List.nil_append] at h2 h3 h4
  refine ⟨stF, h1, h2, ?_, ?_⟩
  · rw [h3]
    simp only [Nat.min_def]
    split_ifs <;> omega
  · rw [h4]
    omega

/-- C5 witness: three messages against capacity 1 — one enqueued and
received, two dropped and failed. -/
theorem ProcessSensorData_backpressure_witness :
    (1 : Nat) < ([msgC1, msgC1, msgC1] : List SensorDataMessage).length ∧
    ∃ stF, runSensorMsgs (startedProcState 1) [msgC1, msgC1, msgC1] = some stF ∧
      stF.queue = [msgC1, msgC1, msgC1].take 1 ∧
      stF.metrics.MessagesReceived = 1 ∧
      stF.metrics.MessagesFailed = [msgC1, msgC1, msgC1].length - 1 :=
  ⟨by decide, ProcessSensorData_backpressure 1 [msgC1, msgC1, msgC1] (by decide)⟩

/-- C1 (code bug): in the state `Stop()` leaves behind — context cancelled
AND sensor channel closed — a further `ProcessSensorData` call indeed can
never deliver the message to a worker, but the send case of its `select`
remains eligible on the closed channel and panics when the pseudo-random
choice picks it, so "does not panic" fails on the code: the panic outcome is
among the possible outcomes of the call. -/
theorem ProcessSensorData_after_stop_can_panic :
    ProcessSensorData (stoppedProcState (startedProcState 4)) msgC1 =
      [PSDOutcome.panicked (stoppedProcState (startedProcState 4)),
       PSDOutcome.returned (stoppedProcState (startedProcState 4))] ∧
    PSDOutcome.panicked (stoppedProcState (startedProcState 4)) ∈
      ProcessSensorData (stoppedProcState (startedProcState 4)) msgC1 := by
  exact ⟨by decide, by decide⟩

/-- C8: round-trip — for every `SensorDataMessage` with a non-zero timestamp
and every optional pointer field non-nil, serializing it to JSON, parsing the
result with `ParseSensorData`, and re-serializing preserves every field's
value and nil-ness (the parse returns the message unchanged, so the second
serialization equals the first). -/
theorem ParseSensorData_roundtrip :
    ∀ (m : SensorDataMessage) (now : GoTime),
      m.Timestamp ≠ 0 →
      m.Temperature.isSome = true → m.Humidity.isSome = true →
      m.LightLevel.isSome = true → m.TiltAngle.isSome = true →
      m.ImpactG.isSome = true → m.BatteryLevel.isSome = true →
      m.SignalStrength.isSome = true →
      ParseSensorData (JPayload.object (marshalSensorData m)) now = some m ∧
      (ParseSensorData (JPayload.object (marshalSensorData m)) now).map marshalSensorData
        = some (marshalSensorData m) := by
  intro m now hts h1 h2 h3 h4 h5 h6 h7
  obtain ⟨did, ts, tp, hu, li, ti, im, ba, si⟩ := m
  simp only [Option.isSome_iff_exists] at h1 h2 h3 h4 h5 h6 h7
  obtain ⟨t, rfl⟩ := h1
  obtain ⟨u, rfl⟩ := h2
  obtain ⟨v, rfl⟩ := h3
  obtain ⟨w, rfl⟩ := h4
  obtain ⟨x, rfl⟩ := h5
  obtain ⟨b, rfl⟩ := h6
  obtain ⟨s, rfl⟩ := h7
  have hun : unmarshalSensorData
      (marshalSensorData ⟨did, ts, some t, some u, some v, some w, some x, some b, some s⟩) =
      some ⟨did, ts, some t, some u, some v, some w, some x, some b, some s⟩ := rfl
  have hp : ParseSensorData
      (JPayload.object
        (marshalSensorData ⟨did, ts, some t, some u, some v, some w, some x, some b, some s⟩)) now =
      some ⟨did, ts, some t, some u, some v, some w, some x, some b, some s⟩ := by
    dsimp only at hts
    simp only [ParseSensorData, hun, Option.map]
    rw [if_neg hts]
  exact ⟨hp, by rw [hp]; rfl⟩

/-- C8 witness: the round trip at a concrete all-fields-set message. -/
theorem ParseSensorData_roundtrip_witness :
    msgC8.Timestamp ≠ 0 ∧
    (ParseSensorData (JPayload.object (marshalSensorData msgC8)) 99 = some msgC8 ∧
     (ParseSensorData (JPayload.object (marshalSensorData msgC8)) 99).map marshalSensorData
       = some (marshalSensorData msgC8)) :=
  ⟨by decide,
   ParseSensorData_roundtrip msgC8 99 (by decide) rfl rfl rfl rfl rfl rfl rfl⟩

/-- C6: `flushBatch` on an empty buffer is a no-op (state unchanged, no
insert attempted); on a non-empty buffer it swaps the buffer for an empty
one and hands exactly the swapped-out records to one bulk insert, and —
with no retry, the batch being discarded either way — a failed insert
increments `MessagesFailed` by exactly the batch size while a successful
one increments `RecordsInserted` by exactly the batch size, each leaving
the other counter unchanged. -/
theorem flushBatch_spec :
    ∀ (st : FlushState) (insertOk : Bool),
      (st.sensorBuffer = [] → flushBatch st insertOk = (st, none)) ∧
      (st.sensorBuffer ≠ [] →
        (flushBatch st insertOk).2 = some st.sensorBuffer ∧
        (flushBatch st insertOk).1.sensorBuffer = [] ∧
        (insertOk = true →
          (flushBatch st insertOk).1.metrics.RecordsInserted =
            st.metrics.RecordsInserted + st.sensorBuffer.length ∧
          (flushBatch st insertOk).1.metrics.MessagesFailed = st.metrics.MessagesFailed) ∧
        (insertOk = false →
          (flushBatch st insertOk).1.metrics.MessagesFailed =
            st.metrics.MessagesFailed + st.sensorBuffer.length ∧
          (flushBatch st insertOk).1.metrics.RecordsInserted = st.metrics.RecordsInserted)) := by
  intro st insertOk
  constructor
  · intro h
    unfold flushBatch
    simp [h]
  · intro h
    unfold flushBatch
    rcases insertOk <;> simp [h]

/-- C6 witness: a one-record buffer flushed with a failing insert. -/
theorem flushBatch_spec_witness :
    flushStateC6.sensorBuffer ≠ [] ∧
    ((flushBatch flushStateC6 false).2 = some flushStateC6.sensorBuffer ∧
     (flushBatch flushStateC6 false).1.sensorBuffer = [] ∧
     (flushBatch flushStateC6 false).1.metrics.MessagesFailed =
       flushStateC6.metrics.MessagesFailed + flushStateC6.sensorBuffer.length) := by
  have h := (flushBatch_spec flushStateC6 false).2 (by decide)
  exact ⟨by decide, h.1, h.2.1, (h.2.2.2 rfl).1⟩

/-- C9: `Start` on an already started client returns nil without touching
the transport (no reconnect, no re-subscribe, state unchanged); `Start`
returns an error when the transport connection fails, and also when no
topic is configured; `Stop` on a never-started client is a no-op performing
no transport action (and, being a total function of the model, cannot
panic). -/
theorem clientStart_clientStop_lifecycle :
    (∀ (cfg : MQTTIngestionConfig) (connectOk : Bool) (subOk : String → Bool)
       (st : MQTTClientState), st.started = true →
      clientStart cfg connectOk subOk st = (st, none, [])) ∧
    (∀ (cfg : MQTTIngestionConfig) (subOk : String → Bool) (st : MQTTClientState),
      st.started = false →
      ((clientStart cfg false subOk st).2.1).isSome = true) ∧
    (∀ (cfg : MQTTIngestionConfig) (connectOk : Bool) (subOk : String → Bool)
       (st : MQTTClientState), st.started = false → configuredTopics cfg = [] →
      ((clientStart cfg connectOk subOk st).2.1).isSome = true) ∧
    (∀ st : MQTTClientState, st.started = false → clientStop st = (st, [])) := by
  refine ⟨?_, ?_, ?_, ?_⟩
  · intro cfg connectOk subOk st h
    unfold clientStart
    simp [h]
  · intro cfg subOk st h
    unfold clientStart
    simp [h]
  · intro cfg connectOk subOk st h htop
    unfold clientStart
    rcases connectOk <;> simp [h, htop]
  · intro st h
    unfold clientStop
    simp [h]

/-- C9 witness: the four lifecycle facts at concrete configurations and
client states. -/
theorem clientStart_clientStop_lifecycle_witness :
    clientStart cfgC9 true subOkC9 startedClientC9 = (startedClientC9, none, []) ∧
    ((clientStart cfgC9 false subOkC9 freshClientC9).2.1).isSome = true ∧
    ((clientStart emptyCfgC9 true subOkC9 freshClientC9).2.1).isSome = true ∧
    clientStop freshClientC9 = (freshClientC9, []) :=
  ⟨clientStart_clientStop_lifecycle.1 cfgC9 true subOkC9 startedClientC9 rfl,
   clientStart_clientStop_lifecycle.2.1 cfgC9 subOkC9 freshClientC9 rfl,
   clientStart_clientStop_lifecycle.2.2.1 emptyCfgC9 true subOkC9 freshClientC9 rfl (by decide),
   clientStart_clientStop_lifecycle.2.2.2 freshClientC9 rfl⟩

/-- C2 counterexample: the payload `payloadC2` carries temperature 200,
which fails `ValidateSensorData`, yet `handleSensorMessage` parses it
without range validation and enqueues it on the sensor channel — the
invalid reading reaches the Processor.  Moreover a syntactically malformed
payload is rejected without incrementing any failure metric (the state,
metrics included, is returned unchanged). -/
theorem unvalidated_reading_reaches_processor :
    ParseSensorData payloadC2 5 = some msgC2 ∧
    (ValidateSensorData msgC2).isSome = true ∧
    handleSensorMessage (startedProcState 16) 5 payloadC2 =
      [{ startedProcState 16 with
          queue := [msgC2],
          metrics := { zeroMetrics with MessagesReceived := 1, BufferSize := 1 } }] ∧
    handleSensorMessage (startedProcState 16) 5 JPayload.malformed = [startedProcState 16] := by
  refine ⟨by decide, by decide, by decide, by decide⟩

/-- C2 amended: only syntactically malformed payloads are rejected before
the pipeline, and without counting a failure; every successfully parsed
reading — validated or not — is forwarded to `ProcessSensorData` and
enqueued (when the channel has room), and range validation happens inside
the Processor's sensor worker, whose `processSensorMessage` rejects an
invalid reading with the validation error (which the worker then counts as
a failed message). -/
theorem sensor_validation_happens_in_worker :
    (∀ (st : ProcState) (now : GoTime),
      handleSensorMessage st now JPayload.malformed = [st]) ∧
    (∀ (st : ProcState) (now : GoTime) (payload : JPayload) (msg : SensorDataMessage),
      ParseSensorData payload now = some msg →
      st.closed = false → st.cancelled = false → st.queue.length < st.bufferSize →
      handleSensorMessage st now payload =
        [{ st with queue := st.queue ++ [msg],
                   metrics := { st.metrics with
                     MessagesReceived := st.metrics.MessagesReceived + 1,
                     BufferSize := st.queue.length + 1 } }]) ∧
    (∀ (cache : List (String × LocationDataMessage)) (buffer : List SensorDataRecord)
       (batchSize : Nat) (msg : SensorDataMessage) (e : ValidationError),
      ValidateSensorData msg = some e →
      processSensorMessage cache buffer batchSize msg = Except.error e) := by
  refine ⟨fun st now => rfl, ?_, ?_⟩
  · intro st now payload msg hparse h1 h2 hq
    unfold handleSensorMessage
    rw [hparse]
    unfold ProcessSensorData
    simp [h1, h2, hq, PSDOutcome.state]
  · intro cache buffer batchSize msg e hval
    unfold processSensorMessage
    rw [hval]

/-- C2 amended witness: the out-of-range payload is enqueued and its message
is rejected by the worker with the temperature validation error. -/
theorem sensor_validation_happens_in_worker_witness :
    handleSensorMessage (startedProcState 16) 5 payloadC2 =
      [{ startedProcState 16 with
          queue := [msgC2],
          metrics := { zeroMetrics with MessagesReceived := 1, BufferSize := 1 } }] ∧
    processSensorMessage [] [] 10 msgC2 =
      Except.error ⟨"temperature", "temperature must be between -100 and 100"⟩ := by
  refine ⟨?_, ?_⟩
  · have h := sensor_validation_happens_in_worker.2.1 (startedProcState 16) 5 payloadC2 msgC2
      (by decide) rfl rfl (by decide)
    rw [h]
    decide
  · exact sensor_validation_happens_in_worker.2.2 [] [] 10 msgC2
      ⟨"temperature", "temperature must be between -100 and 100"⟩ (by decide)

end LogisticsIngestion
